import Mathlib

set_option maxRecDepth 16384

/-!
Verification of the Object-Store cluster health check ("Detective").

The Go sources are embedded shallowly:
* `Json` models the generic value produced by `encoding/json.Unmarshal` into
  an `interface{}`: objects become `map[string]interface{}` (modelled as an
  association list where the last binding for a key wins, matching sequential
  map insertion), arrays become `[]interface{}`, strings stay strings and
  numbers become `float64` (modelled as `Int`; the payloads checked here never
  carry fractional numbers).
* A missing key of a Go map yields the `nil` interface value, exactly like a
  JSON `null`; both are modelled by `Json.null`.
* Go type assertions `v.(T)` without the comma-ok form abort the program with
  a runtime error when they fail; check functions that contain such an
  assertion therefore return `COutcome`, whose `panicked` constructor marks
  that abort.  Comma-ok assertions are modelled by pattern matches.
* `fmt` verbs are modelled for the scalar kinds the checks actually format:
  `%v` by `goFmtV`, `%s` by `goFmtS`, `%T` by `goFmtT`, `%0.f` by `goFmt0f`
  and `%d` by `goFmtD` (composite kinds get an approximate rendering that no
  theorem below depends on).
-/

inductive Json where
  | null : Json
  | bool : Bool → Json
  | num : Int → Json
  | str : String → Json
  | arr : List Json → Json
  | obj : List (String × Json) → Json

/-- Indexing a decoded Go map: the last binding wins (later `json` object
members overwrite earlier ones in the map); a missing key gives the zero
interface value, which is indistinguishable from JSON `null`. -/
def lookupLast (fields : List (String × Json)) (key : String) : Json :=
  fields.foldl (fun acc p => if p.1 = key then p.2 else acc) Json.null

/-- Go comparison `v == "lit"` between an `interface{}` and a string literal:
true exactly when the dynamic type is `string` and the contents agree. -/
def Json.isStr : Json → String → Bool
  | .str t, s => t = s
  | _, _ => false

/-- Comma-ok string assertion `v.(string)`. -/
def Json.asStr : Json → Option String
  | .str s => some s
  | _ => none

/-- Whether the dynamic type of the value is `string`. -/
def Json.isString : Json → Bool
  | .str _ => true
  | _ => false

/-- `fmt` verb `%v` on the scalar kinds produced by `encoding/json`. -/
def goFmtV : Json → String
  | .null => "<nil>"
  | .bool b => if b then "true" else "false"
  | .num n => toString n
  | .str s => s
  | .arr _ => "[...]"
  | .obj _ => "map[...]"

/-- `fmt` verb `%s`: strings print verbatim, other kinds get the
`%!s(type=value)` error rendering. -/
def goFmtS : Json → String
  | .str s => s
  | .null => "%!s(<nil>)"
  | .bool b => "%!s(bool=" ++ (if b then "true" else "false") ++ ")"
  | .num n => "%!s(float64=" ++ toString n ++ ")"
  | .arr _ => "[...]"
  | .obj _ => "map[...]"

/-- `fmt` verb `%T`: the Go dynamic type name of a decoded JSON value. -/
def goFmtT : Json → String
  | .null => "<nil>"
  | .bool _ => "bool"
  | .num _ => "float64"
  | .str _ => "string"
  | .arr _ => "[]interface \x7b\x7d"
  | .obj _ => "map[string]interface \x7b\x7d"

/-- `fmt` verb `%0.f` on a decoded value (the checks apply it to `disk_id`,
a `float64` holding an integer). -/
def goFmt0f : Json → String
  | .num n => toString n
  | .null => "%!f(<nil>)"
  | .str s => "%!f(string=" ++ s ++ ")"
  | .bool b => "%!f(bool=" ++ (if b then "true" else "false") ++ ")"
  | .arr _ => "[...]"
  | .obj _ => "map[...]"

/-- `fmt` verb `%d` on a decoded value: `encoding/json` numbers are
`float64`, so `%d` produces the `%!d(float64=...)` error rendering. -/
def goFmtD : Json → String
  | .num n => "%!d(float64=" ++ toString n ++ ")"
  | .null => "%!d(<nil>)"
  | .str s => "%!d(string=" ++ s ++ ")"
  | .bool b => "%!d(bool=" ++ (if b then "true" else "false") ++ ")"
  | .arr _ => "[...]"
  | .obj _ => "map[...]"

/-- Result of running the body-validation part of a check: either the string
the Go function returns, or a runtime abort caused by a failed unchecked
type assertion. -/
inductive COutcome where
  | ret : String → COutcome
  | panicked : COutcome
deriving DecidableEq, Repr

/-! ### A model of `encoding/json.Unmarshal` on the payload subset

`Utils.ParseJSON` delegates to the Go standard library.  The model below is a
tokenizer plus a stack machine covering the subset the checks exercise:
`null`, booleans, integer numbers, escape-free strings (plus the basic
escapes), arrays and objects.  Fractional numbers are rejected; no claim
depends on them.  The library's error text is abstracted to the constant
`"invalid JSON"`; no claim depends on the error text either. -/

def lbraceChar : Char := Char.ofNat 123

def rbraceChar : Char := Char.ofNat 125

inductive Tok where
  | lbrk | rbrk | lbrc | rbrc | colon | comma
  | str : String → Tok
  | num : Int → Tok
  | nullTok | truTok | falTok
deriving DecidableEq, Repr

def skipWs : List Char → List Char
  | [] => []
  | c :: rest =>
    if c = ' ' ∨ c = '\n' ∨ c = '\t' ∨ c = '\r' then skipWs rest else c :: rest

/-- Scan the characters of a JSON string literal (opening quote already
consumed), handling the basic escapes. -/
def scanStr (acc : List Char) : List Char → Option (List Char × List Char)
  | [] => none
  | '"' :: rest => some (acc.reverse, rest)
  | '\\' :: c :: rest =>
    if c = '"' then scanStr ('"' :: acc) rest
    else if c = '\\' then scanStr ('\\' :: acc) rest
    else if c = '/' then scanStr ('/' :: acc) rest
    else if c = 'n' then scanStr ('\n' :: acc) rest
    else if c = 't' then scanStr ('\t' :: acc) rest
    else if c = 'r' then scanStr ('\r' :: acc) rest
    else none
  | '\\' :: [] => none
  | c :: rest => scanStr (c :: acc) rest

def digitsVal (ds : List Char) : Nat :=
  ds.foldl (fun a c => a * 10 + (c.toNat - 48)) 0

def tokenize (fuel : Nat) (s : List Char) : Option (List Tok) :=
  match fuel with
  | 0 => none
  | fuel + 1 =>
    match skipWs s with
    | [] => some []
    | c :: rest =>
      if c = '[' then (tokenize fuel rest).map (Tok.lbrk :: ·)
      else if c = ']' then (tokenize fuel rest).map (Tok.rbrk :: ·)
      else if c = lbraceChar then (tokenize fuel rest).map (Tok.lbrc :: ·)
      else if c = rbraceChar then (tokenize fuel rest).map (Tok.rbrc :: ·)
      else if c = ':' then (tokenize fuel rest).map (Tok.colon :: ·)
      else if c = ',' then (tokenize fuel rest).map (Tok.comma :: ·)
      else if c = '"' then
        match scanStr [] rest with
        | some (cs, rest2) => (tokenize fuel rest2).map (Tok.str (String.mk cs) :: ·)
        | none => none
      else if c = '-' then
        match rest.span Char.isDigit with
        | (ds, rest2) =>
          if ds.isEmpty then none
          else (tokenize fuel rest2).map (Tok.num (-(Int.ofNat (digitsVal ds))) :: ·)
      else if c.isDigit then
        match (c :: rest).span Char.isDigit with
        | (ds, rest2) => (tokenize fuel rest2).map (Tok.num (Int.ofNat (digitsVal ds)) :: ·)
      else
        match c :: rest with
        | 'n' :: 'u' :: 'l' :: 'l' :: rest2 => (tokenize fuel rest2).map (Tok.nullTok :: ·)
        | 't' :: 'r' :: 'u' :: 'e' :: rest2 => (tokenize fuel rest2).map (Tok.truTok :: ·)
        | 'f' :: 'a' :: 'l' :: 's' :: 'e' :: rest2 => (tokenize fuel rest2).map (Tok.falTok :: ·)
        | _ => none

/-- A partially built composite value on the parse stack: either an array
with its elements so far (reversed), or an object with its members so far
(reversed) and the key whose value is being read. -/
inductive PFrame where
  | inArr : List Json → PFrame
  | inObj : List (String × Json) → String → PFrame

/-- Stack machine over the token stream.  `cur = some v` means a complete
value `v` was just produced and must either finish the parse or be fed into
the innermost open composite. -/
def prun (fuel : Nat) (cur : Option Json) (toks : List Tok) (stack : List PFrame) : Option Json :=
  match fuel with
  | 0 => none
  | fuel + 1 =>
    match cur with
    | some v =>
      match stack with
      | [] => match toks with | [] => some v | _ => none
      | PFrame.inArr elems :: st =>
        match toks with
        | Tok.comma :: rest => prun fuel none rest (PFrame.inArr (v :: elems) :: st)
        | Tok.rbrk :: rest => prun fuel (some (Json.arr (v :: elems).reverse)) rest st
        | _ => none
      | PFrame.inObj fields key :: st =>
        match toks with
        | Tok.comma :: Tok.str k :: Tok.colon :: rest =>
          prun fuel none rest (PFrame.inObj ((key, v) :: fields) k :: st)
        | Tok.rbrc :: rest =>
          prun fuel (some (Json.obj ((key, v) :: fields).reverse)) rest st
        | _ => none
    | none =>
      match toks with
      | Tok.nullTok :: rest => prun fuel (some Json.null) rest stack
      | Tok.truTok :: rest => prun fuel (some (Json.bool true)) rest stack
      | Tok.falTok :: rest => prun fuel (some (Json.bool false)) rest stack
      | Tok.str s :: rest => prun fuel (some (Json.str s)) rest stack
      | Tok.num n :: rest => prun fuel (some (Json.num n)) rest stack
      | Tok.lbrk :: Tok.rbrk :: rest => prun fuel (some (Json.arr [])) rest stack
      | Tok.lbrk :: rest => prun fuel none rest (PFrame.inArr [] :: stack)
      | Tok.lbrc :: Tok.rbrc :: rest => prun fuel (some (Json.obj [])) rest stack
      | Tok.lbrc :: Tok.str k :: Tok.colon :: rest =>
        prun fuel none rest (PFrame.inObj [] k :: stack)
      | _ => none

/-- `Utils.ParseJSON` (via `encoding/json.Unmarshal`) on the payload subset. -/
def parseJSON (s : String) : Except String Json :=
  let cs := s.toList
  match tokenize (cs.length + 1) cs with
  | none => Except.error "invalid JSON"
  | some toks =>
    match prun (2 * toks.length + 4) none toks [] with
    | some j => Except.ok j
    | none => Except.error "invalid JSON"

/-! ### Constants shared by the checks (Constants/Constants.go) -/

def TwoNewLines : String := "\n\n"

/-! ### Checks/checks.go — body validation of the storage-API checks

Each storage-API check first builds the request, sends it, reads the body and
rejects non-2xx statuses; those shared steps involve the network and are not
modelled.  The functions below embed everything a check does with a 2xx
response body, which is where all the decision logic of the claims lives.
`XxxCore` takes the decoded value, `XxxBody` the raw body string. -/

/-- Loop of `NodesStatus` over the decoded node array (index `i` only feeds
the error message for a non-object element). -/
def nodesLoop (i : Nat) : List Json → String
  | [] => "Success"
  | item :: rest =>
    match item with
    | Json.obj m =>
      match (lookupLast m "status_str").asStr, (lookupLast m "name").asStr with
      | some healthStr, some nodeName =>
        if healthStr ≠ "ACTIVE" then
          "node '" ++ nodeName ++ "' is not ACTIVE. Current health: '" ++ healthStr ++ "'"
        else nodesLoop (i + 1) rest
      | _, _ => "A node in the response is missing or has invalid 'health_str' or 'name' fields"
    | _ => "unexpected item in JSON array at index " ++ toString i ++ ": expected an object"

/-- `Check.NodesStatus`, from the decoded response on.  Every field access in
the Go source uses the comma-ok form, so no abort is possible. -/
def NodesStatusCore (parsedJSON : Json) : String :=
  match parsedJSON with
  | Json.arr nodeList => nodesLoop 0 nodeList
  | _ => "unexpected JSON structure: expected an array of nodes, but got " ++ goFmtT parsedJSON

/-- `Check.NodesStatus` applied to a raw 2xx body. -/
def NodesStatusBody (body : String) : String :=
  match parseJSON body with
  | Except.error e => "failed to parse JSON response: " ++ e
  | Except.ok j => NodesStatusCore j

/-- `Check.ReplicationStatus`, from the decoded response on (the literal
`"\x7b\x7d"` body is intercepted before decoding, see `ReplicationStatus`). -/
def ReplicationStatusCore (parsedJSON : Json) : String :=
  match parsedJSON with
  | Json.obj fields =>
    match lookupLast fields "ReplicatedClusters" with
    | Json.arr (first :: _) =>
      match first with
      | Json.obj fm =>
        match lookupLast fm "Health" with
        | Json.str health =>
          if health ≠ "ONLINE" then
            "Replication is configured but the health is not Online, current health: " ++ health
          else "Success"
        | _ => "unexpected JSON structure: 'Health' field is missing or not a string"
      | _ => "unexpected JSON structure: expected an object in 'ReplicatedCluster' array"
    | Json.arr [] => "unexpected JSON structure: expected an object in 'ReplicatedCluster' array"
    | _ => "unexpected JSON structure: expected an object in 'ReplicatedCluster' array"
  | _ => "unexpected JSON structure: expected an object at the top level"

/-- `Check.ReplicationStatus` applied to a raw 2xx body: the empty-object
literal short-circuits to the "not set" outcome before any JSON decoding. -/
def ReplicationStatus (body : String) : String :=
  if body = "\x7b\x7d" then "❌ Replication not set" ++ TwoNewLines
  else
    match parseJSON body with
    | Except.error e => "failed to parse JSON response: " ++ e
    | Except.ok j => ReplicationStatusCore j

/-- Loop of `DisksetStatus`: each element is hit by the unchecked assertion
`j.(map[string]interface\x7b\x7d)`, and the health/status fields are plain map
reads compared against string literals (`A || B && C` parses as
`A || (B && C)` in Go). -/
def disksetLoop : List Json → Option COutcome
  | [] => none
  | item :: rest =>
    match item with
    | Json.obj m =>
      let disksetHealth := lookupLast m "health_str"
      let disksetID := lookupLast m "id"
      let disksetStatus := lookupLast m "status_str"
      if ¬ disksetHealth.isStr "HEALTHY" ∨
          (¬ disksetStatus.isStr "ACTIVE" ∧ ¬ disksetStatus.isStr "REBUILDING") then
        some (COutcome.ret ("❌ Diskset ID " ++ goFmtV disksetID ++
          " is not healthy or active. Health: " ++ goFmtV disksetHealth ++
          ", Status: " ++ goFmtV disksetStatus))
      else disksetLoop rest
    | _ => some COutcome.panicked

/-- `Check.DisksetStatus`, from the decoded response on.  The read
`parsedJSONMap["disksets"].([]interface\x7b\x7d)` is an unchecked assertion: a
missing or non-array `disksets` field aborts the program. -/
def DisksetStatusCore (parsedJSON : Json) : COutcome :=
  match parsedJSON with
  | Json.obj fields =>
    match lookupLast fields "disksets" with
    | Json.arr disksets =>
      match disksetLoop disksets with
      | some r => r
      | none =>
        if disksets.length = 0 then
          COutcome.ret "❌ There are no disksets present, User can not perform data operations\n"
        else COutcome.ret "Success"
    | _ => COutcome.panicked
  | _ => COutcome.ret "unexpected JSON structure: expected an object at the top level"

/-- Loop of `DiskStatus`: the element itself is checked with the comma-ok
form, but `disk["health_str"].(string)` and `disk["status_str"].(string)` are
unchecked assertions that abort on a missing or non-string field. -/
def diskLoop (i : Nat) : List Json → Option COutcome
  | [] => none
  | item :: rest =>
    match item with
    | Json.obj m =>
      match (lookupLast m "health_str").asStr with
      | none => some COutcome.panicked
      | some healthStr =>
        match (lookupLast m "status_str").asStr with
        | none => some COutcome.panicked
        | some statusStr =>
          let diskID := lookupLast m "disk_id"
          if healthStr ≠ "ONLINE" then
            some (COutcome.ret ("❌  Disk with Id " ++ goFmt0f diskID ++
              " is unhealthy: expected ONLINE/OFFLINE, got health " ++ healthStr ++
              " and status " ++ statusStr))
          else if statusStr ≠ "IN_USE" ∧ statusStr ≠ "UNUSED" then
            some (COutcome.ret ("❌ Disk with Id " ++ goFmtD diskID ++
              " has invalid status: expected IN_USE or UNUSED, got " ++ statusStr))
          else diskLoop (i + 1) rest
    | _ => some (COutcome.ret ("unexpected item in JSON array at index " ++ toString i ++
        ": expected an object"))

/-- `Check.DiskStatus`, from the decoded response on: the empty-list test
comes before the per-disk loop. -/
def DiskStatusCore (parsedJSON : Json) : COutcome :=
  match parsedJSON with
  | Json.arr diskList =>
    if diskList.length = 0 then
      COutcome.ret "❌ There are no disks present in the ObjectStore Cluster, A user can not perform data operations\n"
    else
      match diskLoop 0 diskList with
      | some r => r
      | none => COutcome.ret "Success"
  | _ => COutcome.ret ("unexpected JSON structure: expected an array at the top level, but got " ++
      goFmtT parsedJSON)

/-- `Check.LDAPStatus`, from the decoded response on.  The two reads of
`parsedJSONMap["ldap_info"].(map[string]interface\x7b\x7d)` are unchecked
assertions; `status_str` and `ldap_server_address` are plain map reads
compared against string literals.  The "configured but disabled" state is
only logged: the function still returns `"Success"` for it. -/
def LDAPStatusCore (parsedJSON : Json) : COutcome :=
  match parsedJSON with
  | Json.obj fields =>
    match lookupLast fields "ldap_info" with
    | Json.obj info =>
      let status := lookupLast info "status_str"
      let server_address := lookupLast info "ldap_server_address"
      if status.isStr "DISABLED" ∧ server_address.isStr "" then
        COutcome.ret ("❌ LDAP is not configured" ++ TwoNewLines)
      else COutcome.ret "Success"
    | _ => COutcome.panicked
  | _ => COutcome.ret ("unexpected JSON structure: expected an object at the top level" ++ TwoNewLines)

/-- `Check.ClusterHealth`, from the decoded response on: the four status
fields are plain map reads compared against `"Online"` in source order, each
mismatch returning immediately with a message that formats only the observed
value (`%s`), not the field name. -/
def ClusterHealthCore (parsedJSON : Json) : String :=
  match parsedJSON with
  | Json.obj fields =>
    let controlHealthStatus := lookupLast fields "controlHealthStatus"
    if ¬ controlHealthStatus.isStr "Online" then
      "❌ Cluster health check failed: expected Online, got " ++ goFmtS controlHealthStatus
    else
      let metadataHealthStatus := lookupLast fields "metadataHealthStatus"
      if ¬ metadataHealthStatus.isStr "Online" then
        "❌ Cluster health check failed: expected Online, got " ++ goFmtS metadataHealthStatus
      else
        let datapathHealthStatus := lookupLast fields "datapathHealthStatus"
        if ¬ datapathHealthStatus.isStr "Online" then
          "❌ Cluster health check failed: expected Online, got " ++ goFmtS datapathHealthStatus
        else
          let clusterStatus := lookupLast fields "clusterHealthStatus"
          if ¬ clusterStatus.isStr "Online" then
            "❌ Cluster health check failed: expected Online, got " ++ goFmtS clusterStatus
          else "Success"
  | _ => "unexpected JSON structure: expected an object at the top level"

/-- `Check.ClusterHealth` applied to a raw 2xx body. -/
def ClusterHealthBody (body : String) : String :=
  match parseJSON body with
  | Except.error e => "failed to parse JSON response: " ++ e
  | Except.ok j => ClusterHealthCore j

/-! ### Checks/checks.go — AllPodsAreRunning

The pod listing is the function's input; the k8s API-error path is not
modelled.  Kubernetes enum-like fields (`phase`, condition types and
statuses) are the strings of the `k8s.io/api/core/v1` constants.  The
`foundPods` map is modelled by the accumulated list of satisfied prefixes;
the Go `range` over that map at the end visits the keys (the distinct
required prefixes) in an unspecified, run-dependent order, modelled by the
explicit `iterOrder` argument. -/

inductive CState where
  | waiting : String → String → CState
  | terminated : Int → String → CState
  | running : CState
deriving DecidableEq, Repr

structure ContainerStatus where
  name : String
  ready : Bool
  state : CState
deriving DecidableEq, Repr

structure PodCondition where
  condType : String
  condStatus : String
deriving DecidableEq, Repr

structure Pod where
  name : String
  deletionTimestamp : Option String
  statusReason : String
  phase : String
  containerStatuses : List ContainerStatus
  conditions : List PodCondition
deriving DecidableEq, Repr

/-- Check 4 of `AllPodsAreRunning`: the first not-ready container of the pod
produces the failure message (waiting reasons in the crash/pull set get the
specific wording, other waiting reasons the generic one, terminated states
the exit-code one, anything else the unknown-reason one). -/
def containerLoop (podName : String) : List ContainerStatus → Option String
  | [] => none
  | cs :: rest =>
    if cs.ready then containerLoop podName rest
    else some (match cs.state with
      | CState.waiting reason message =>
        if reason = "CrashLoopBackOff" ∨ reason = "ImagePullBackOff" ∨ reason = "ErrImagePull" then
          "❌ container '" ++ cs.name ++ "' in pod '" ++ podName ++ "' is not ready. Reason: " ++
            reason ++ " - " ++ message
        else
          "❌ container '" ++ cs.name ++ "' in pod '" ++ podName ++ "' is in a waiting state. Reason: " ++
            reason ++ " - " ++ message
      | CState.terminated exitCode reason =>
        "❌ container '" ++ cs.name ++ "' in pod '" ++ podName ++ "' has terminated with exit code " ++
          toString exitCode ++ ". Reason: " ++ reason
      | CState.running =>
        "❌ container '" ++ cs.name ++ "' in pod '" ++ podName ++ "' is not ready for an unknown reason")

/-- Check 5 of `AllPodsAreRunning`: some condition has type `Ready` with
status `True`. -/
def podReady (conditions : List PodCondition) : Bool :=
  conditions.any (fun c => c.condType = "Ready" ∧ c.condStatus = "True")

/-- Verdict of one iteration of the pod loop: an early-returned failure
message, a `continue` for completed pods, or a pod that passed every check
(only passing pods reach the prefix-marking step). -/
inductive PodEval where
  | fail : String → PodEval
  | skip : PodEval
  | pass : PodEval
deriving DecidableEq, Repr

/-- Checks 1–5 of the pod loop body, in source order. -/
def evalPod (pod : Pod) : PodEval :=
  if pod.deletionTimestamp.isSome then
    PodEval.fail ("❌ pod '" ++ pod.name ++ "' is terminating")
  else if pod.statusReason = "Evicted" then
    PodEval.fail ("❌ pod '" ++ pod.name ++ "' has been evicted. Check node status and resource limits")
  else if pod.phase = "Succeeded" ∨ pod.phase = "Failed" then
    PodEval.skip
  else if pod.phase ≠ "Running" then
    PodEval.fail ("❌ pod '" ++ pod.name ++ "' is not in 'Running' phase. Current phase: '" ++
      pod.phase ++ "'")
  else
    match containerLoop pod.name pod.containerStatuses with
    | some msg => PodEval.fail msg
    | none =>
      if podReady pod.conditions then PodEval.pass
      else PodEval.fail ("❌ pod '" ++ pod.name ++ "' is not ready. Check its readiness probes and conditions")

/-- `strings.HasPrefix(s, pre)`. -/
def goHasPrefix (s pre : String) : Bool := pre.toList.isPrefixOf s.toList

/-- The pod loop: fail fast with the first violating pod's message, and record
which required prefixes were matched by a pod that passed all checks
(skipped pods do not mark prefixes: the loop body `continue`s before the
marking step). -/
def podLoop (requiredPodPrefixes : List String) :
    List Pod → List String → Except String (List String)
  | [], satisfied => Except.ok satisfied
  | pod :: rest, satisfied =>
    match evalPod pod with
    | PodEval.fail msg => Except.error msg
    | PodEval.skip => podLoop requiredPodPrefixes rest satisfied
    | PodEval.pass =>
      podLoop requiredPodPrefixes rest
        (satisfied ++ requiredPodPrefixes.filter (fun p => goHasPrefix pod.name p))

/-- `Check.AllPodsAreRunning` on a pod listing.  `iterOrder` is the order in
which the Go `range` visits the keys of the `foundPods` map — some
permutation of the distinct required prefixes, chosen by the runtime on each
call.  (A `nil` and an empty prefix slice behave identically: with no keys
the final loop finds nothing either way.) -/
def AllPodsAreRunning (ns : String) (pods : List Pod) (requiredPodPrefixes : List String)
    (iterOrder : List String) : String :=
  if pods.length = 0 ∧ requiredPodPrefixes.length > 0 then
    "❌ no pods found in namespace '" ++ ns ++ "', but required pods were expected"
  else
    match podLoop requiredPodPrefixes pods [] with
    | Except.error msg => msg
    | Except.ok satisfied =>
      match iterOrder.find? (fun p => ¬ satisfied.contains p) with
      | some prefix_ => "❌ Following pod not found: " ++ prefix_ ++ TwoNewLines
      | none => "Success"

/-! ### Detective.go — the orchestrator (`main`)

`main`'s setup (kubeconfig, Helm release, service IP) and the per-check I/O
are external; the run is a function of the outcomes the individual checks
produce.  `KubernetesHealth` returning an error and the token request
failing both call `log.Fatalf`, which terminates the process: these paths
are the `Except.error` results.  Every other non-`"Success"` outcome is
appended to `Issues` and the run continues. -/

structure DiagReport where
  overallSuccess : Bool
  issues : List String
deriving DecidableEq, Repr

/-- Outcomes of the individual checks of one run, in invocation order:
`k8sHealth` and `pvCheck` model the two `error`-returning checks
(`some`/`Except.error` meaning a non-nil error), the rest are the strings
the string-returning checks produce. -/
structure RunInputs where
  k8sHealth : Option String
  podCheck : String
  pvCheck : Option String
  token : Except String String
  version : String
  disk : String
  diskset : String
  nodes : String
  repl : String
  ldap : String
  cluster : String
deriving Repr

/-- The statement pattern `main` repeats after each string-returning check:
`if isSuccess != "Success" \x7b Issues = append(Issues, isSuccess) \x7d`. -/
def collect (issues : List String) (isSuccess : String) : List String :=
  if isSuccess ≠ "Success" then issues ++ [isSuccess] else issues

/-- `main` as a function of the check outcomes: `Except.error` is a
`log.Fatalf` abort, `Except.ok` the final report, whose success banner is
shown exactly when `Issues` stayed empty.  The `collect` steps appear in
`main`'s invocation order: pod check, PV check (which appends its error
directly), then the seven string checks after the token request. -/
def mainRun (i : RunInputs) : Except String DiagReport :=
  match i.k8sHealth with
  | some e => Except.error ("❌ Core Kubernetes health check FAILED: " ++ e)
  | none =>
    let is1 : List String := collect [] i.podCheck
    let is2 : List String := match i.pvCheck with
      | some e => is1 ++ [e]
      | none => is1
    match i.token with
    | Except.error e => Except.error ("❌ POST request FAILED: " ++ e)
    | Except.ok _ =>
      let is9 :=
        collect (collect (collect (collect (collect (collect (collect is2
          i.version) i.disk) i.diskset) i.nodes) i.repl) i.ldap) i.cluster
      Except.ok { overallSuccess := is9.isEmpty, issues := is9 }

/-! ### Specification-side predicates used in the theorem statements -/

/-- The spec's pass condition for the replication payload: a top-level object
with a non-empty `ReplicatedClusters` array whose first element's `Health`
is the string `"ONLINE"`. -/
def replOnline (j : Json) : Bool :=
  match j with
  | Json.obj fields =>
    match lookupLast fields "ReplicatedClusters" with
    | Json.arr (Json.obj fm :: _) => (lookupLast fm "Health").isStr "ONLINE"
    | _ => false
  | _ => false

/-- A node element carrying a string `name` and a string `status_str`. -/
def wfNode : Json → Bool
  | Json.obj m => (lookupLast m "name").isString && (lookupLast m "status_str").isString
  | _ => false

/-- A node element whose `status_str` is `"ACTIVE"`. -/
def nodeActive : Json → Bool
  | Json.obj m => (lookupLast m "status_str").isStr "ACTIVE"
  | _ => false

/-- Name and observed status of the first node element, in array order, whose
`status_str` differs from `"ACTIVE"` (for well-formed elements). -/
def firstBadNode : List Json → Option (String × String)
  | [] => none
  | Json.obj m :: rest =>
    match (lookupLast m "name").asStr, (lookupLast m "status_str").asStr with
    | some n, some h => if h = "ACTIVE" then firstBadNode rest else some (n, h)
    | _, _ => none
  | _ :: _ => none

/-- The outcome the spec predicts for the node check on well-formed elements:
Success, or the message naming the first non-ACTIVE node. -/
def nodesSpecMsg (l : List Json) : String :=
  match firstBadNode l with
  | none => "Success"
  | some (n, h) => "node '" ++ n ++ "' is not ACTIVE. Current health: '" ++ h ++ "'"

/-- The four cluster-health fields in the order the source tests them. -/
def chFields : List String :=
  ["controlHealthStatus", "metadataHealthStatus", "datapathHealthStatus", "clusterHealthStatus"]

/-- The value of the first cluster-health field (in test order) that is not
the string `"Online"`. -/
def firstNotOnline (fields : List (String × Json)) : Option Json :=
  (chFields.map (lookupLast fields)).find? (fun v => ¬ v.isStr "Online")

/-- The issue messages a completed run accumulates, in execution order: the
pod check, the PV check, then the seven storage-API checks. -/
def issuesOf (i : RunInputs) : List String :=
  (if i.podCheck ≠ "Success" then [i.podCheck] else []) ++ i.pvCheck.toList ++
    ([i.version, i.disk, i.diskset, i.nodes, i.repl, i.ldap, i.cluster].filter
      (fun s => s ≠ "Success"))

/-- How many of the nine non-fatal checks returned a non-Success outcome. -/
def nonSuccessCount (i : RunInputs) : Nat :=
  (if i.podCheck ≠ "Success" then 1 else 0) + (if i.pvCheck.isSome then 1 else 0) +
    ([i.version, i.disk, i.diskset, i.nodes, i.repl, i.ldap, i.cluster].countP
      (fun s => s ≠ "Success"))

/-! ### Helper lemmas -/

theorem ne_of_length_ne {s t : String} (h : s.length ≠ t.length) : s ≠ t :=
  fun he => h (congrArg String.length he)

theorem isString_exists {j : Json} (h : j.isString = true) : ∃ s, j = Json.str s := by
  cases j <;> first
    | exact ⟨_, rfl⟩
    | simp [Json.isString] at h

theorem nodeFail_ne_success (n h : String) :
    ("node '" ++ n ++ "' is not ACTIVE. Current health: '" ++ h ++ "'") ≠ "Success" := by
  apply ne_of_length_ne
  simp only [String.length_append]
  have e1 : ("node '" : String).length = 6 := rfl
  have e2 : ("' is not ACTIVE. Current health: '" : String).length = 34 := rfl
  have e3 : ("'" : String).length = 1 := rfl
  have e4 : ("Success" : String).length = 7 := rfl
  omega

theorem clusterFail_ne_success (v : Json) :
    ("❌ Cluster health check failed: expected Online, got " ++ goFmtS v) ≠ "Success" := by
  apply ne_of_length_ne
  simp only [String.length_append]
  have e1 : ("❌ Cluster health check failed: expected Online, got " : String).length = 52 := rfl
  have e2 : ("Success" : String).length = 7 := rfl
  omega

theorem notFound_ne_success (p : String) :
    ("❌ Following pod not found: " ++ p ++ TwoNewLines) ≠ "Success" := by
  apply ne_of_length_ne
  simp only [String.length_append]
  have e1 : ("❌ Following pod not found: " : String).length = 27 := rfl
  have e2 : (TwoNewLines : String).length = 2 := rfl
  have e3 : ("Success" : String).length = 7 := rfl
  omega

theorem replHealth_ne_success (h : String) :
    ("Replication is configured but the health is not Online, current health: " ++ h) ≠ "Success" := by
  apply ne_of_length_ne
  simp only [String.length_append]
  have e1 : ("Replication is configured but the health is not Online, current health: " : String).length = 72 := rfl
  have e2 : ("Success" : String).length = 7 := rfl
  omega

theorem replHealth_ne_notset (h : String) :
    ("Replication is configured but the health is not Online, current health: " ++ h) ≠
      "❌ Replication not set" ++ TwoNewLines := by
  apply ne_of_length_ne
  simp only [String.length_append]
  have e1 : ("Replication is configured but the health is not Online, current health: " : String).length = 72 := rfl
  have e2 : ("❌ Replication not set" : String).length = 21 := rfl
  have e3 : (TwoNewLines : String).length = 2 := rfl
  omega

theorem parseFail_ne_notset (e : String) :
    ("failed to parse JSON response: " ++ e) ≠ "❌ Replication not set" ++ TwoNewLines := by
  apply ne_of_length_ne
  simp only [String.length_append]
  have e1 : ("failed to parse JSON response: " : String).length = 31 := rfl
  have e2 : ("❌ Replication not set" : String).length = 21 := rfl
  have e3 : (TwoNewLines : String).length = 2 := rfl
  omega

/-! ### Claim theorems -/

/-- C10: a 2xx node-list response whose body is the empty JSON array yields
Success from the node check — zero object-store nodes is not a failure —
whereas the disk and diskset checks do not return Success on an empty list. -/
theorem nodes_empty_list_success_disks_fail :
    NodesStatusBody "[]" = "Success" ∧
    DiskStatusCore (Json.arr []) ≠ COutcome.ret "Success" ∧
    DisksetStatusCore (Json.obj [("disksets", Json.arr [])]) ≠ COutcome.ret "Success" :=
  ⟨rfl, by decide, by decide⟩

/-- C2 is violated by the code: the diskset, disk and LDAP checks read fields
through unchecked type assertions, so a response that decodes as JSON but
lacks the required field (`disksets`, `health_str`/`status_str`, `ldap_info`)
aborts the program with a runtime error instead of producing a Failure
outcome referencing the field. -/
theorem unchecked_assertions_abort :
    DisksetStatusCore (Json.obj []) = COutcome.panicked ∧
    DiskStatusCore (Json.arr [Json.obj []]) = COutcome.panicked ∧
    LDAPStatusCore (Json.obj []) = COutcome.panicked := by
  refine ⟨rfl, rfl, rfl⟩

/-- C9: whenever the decoded diskset list (resp. disk list) is empty, the
check returns the "none present" Failure message — a non-Success outcome —
although no individual element violated the per-element predicate. -/
theorem empty_disk_lists_fail (fields : List (String × Json))
    (h : lookupLast fields "disksets" = Json.arr []) :
    DisksetStatusCore (Json.obj fields) =
      COutcome.ret "❌ There are no disksets present, User can not perform data operations\n" ∧
    DiskStatusCore (Json.arr []) =
      COutcome.ret "❌ There are no disks present in the ObjectStore Cluster, A user can not perform data operations\n" ∧
    DisksetStatusCore (Json.obj fields) ≠ COutcome.ret "Success" ∧
    DiskStatusCore (Json.arr []) ≠ COutcome.ret "Success" := by
  have h1 : DisksetStatusCore (Json.obj fields) =
      COutcome.ret "❌ There are no disksets present, User can not perform data operations\n" := by
    simp only [DisksetStatusCore, h]
    rfl
  refine ⟨h1, rfl, ?_, by decide⟩
  rw [h1]
  decide

/-- C9 witness: the theorem applied to the concrete body decoding to an
object whose `disksets` field is the empty array. -/
theorem empty_disk_lists_fail_witness :
    DisksetStatusCore (Json.obj [("disksets", Json.arr [])]) =
      COutcome.ret "❌ There are no disksets present, User can not perform data operations\n" :=
  (empty_disk_lists_fail [("disksets", Json.arr [])] rfl).1

/-- C4 fails as stated: on a well-formed LDAP response with `status_str`
DISABLED and a non-empty `ldap_server_address`, the check returns the plain
Success outcome — the "configured but disabled" warning is only logged, so
there is no outcome distinct from Success. -/
theorem ldap_disabled_configured_returns_success :
    LDAPStatusCore (Json.obj [("ldap_info", Json.obj
      [("status_str", Json.str "DISABLED"), ("ldap_server_address", Json.str "ldap0.local")])]) =
      COutcome.ret "Success" := rfl

/-- C4 (amended): on a well-formed LDAP response, ENABLED yields Success;
DISABLED with an empty server address yields the "not configured" outcome,
which differs from Success; DISABLED with a non-empty server address also
returns Success — the "configured but disabled" state is logged but not
reported as a distinct outcome. -/
theorem ldap_status_cases (fields info : List (String × Json))
    (hinfo : lookupLast fields "ldap_info" = Json.obj info) :
    (lookupLast info "status_str" = Json.str "ENABLED" →
      LDAPStatusCore (Json.obj fields) = COutcome.ret "Success") ∧
    (lookupLast info "status_str" = Json.str "DISABLED" →
      lookupLast info "ldap_server_address" = Json.str "" →
      LDAPStatusCore (Json.obj fields) =
        COutcome.ret ("❌ LDAP is not configured" ++ TwoNewLines) ∧
      ("❌ LDAP is not configured" ++ TwoNewLines) ≠ "Success") ∧
    (∀ a : String, lookupLast info "status_str" = Json.str "DISABLED" →
      lookupLast info "ldap_server_address" = Json.str a → a ≠ "" →
      LDAPStatusCore (Json.obj fields) = COutcome.ret "Success") := by
  refine ⟨?_, ?_, ?_⟩
  · intro hs
    simp [LDAPStatusCore, hinfo, hs, Json.isStr]
  · intro hs ha
    constructor
    · simp [LDAPStatusCore, hinfo, hs, ha, Json.isStr]
    · apply ne_of_length_ne
      simp only [String.length_append]
      have e1 : ("❌ LDAP is not configured" : String).length = 24 := rfl
      have e2 : (TwoNewLines : String).length = 2 := rfl
      have e3 : ("Success" : String).length = 7 := rfl
      omega
  · intro a hs ha hne
    simp [LDAPStatusCore, hinfo, hs, ha, Json.isStr, hne]

/-- C4 witness: the theorem applied to a concrete well-formed ENABLED
response. -/
theorem ldap_status_cases_witness :
    LDAPStatusCore (Json.obj [("ldap_info", Json.obj
      [("status_str", Json.str "ENABLED"), ("ldap_server_address", Json.str "ldap0.local")])]) =
      COutcome.ret "Success" :=
  (ldap_status_cases
    [("ldap_info", Json.obj [("status_str", Json.str "ENABLED"), ("ldap_server_address", Json.str "ldap0.local")])]
    [("status_str", Json.str "ENABLED"), ("ldap_server_address", Json.str "ldap0.local")]
    rfl).1 rfl

/-- C7: on an empty pod listing the evaluator fails immediately when at least
one required prefix was declared, and returns Success when none were. -/
theorem no_pods_cases (ns : String) (requiredPodPrefixes iterOrder : List String)
    (h : requiredPodPrefixes ≠ []) :
    AllPodsAreRunning ns [] requiredPodPrefixes iterOrder =
      "❌ no pods found in namespace '" ++ ns ++ "', but required pods were expected" ∧
    AllPodsAreRunning ns [] [] [] = "Success" := by
  constructor
  · have hlen : requiredPodPrefixes.length > 0 := List.length_pos.mpr h
    simp [AllPodsAreRunning, hlen]
  · rfl

/-- C7 witness: the theorem applied to a concrete namespace and a singleton
required-prefix set. -/
theorem no_pods_cases_witness :
    AllPodsAreRunning "ostore" [] ["ostore-gateway"] ["ostore-gateway"] =
      "❌ no pods found in namespace 'ostore', but required pods were expected" :=
  ((no_pods_cases "ostore" ["ostore-gateway"] ["ostore-gateway"] (by decide)).1).trans rfl

/-- C3 fails as stated: on the spec's own scenario body the check reports the
first non-Online value, but its message cites only the observed value — the
failing field's name `datapathHealthStatus` appears nowhere in it. -/
theorem cluster_health_message_lacks_field_name :
    ClusterHealthBody "\x7b\"controlHealthStatus\":\"Online\",\"metadataHealthStatus\":\"Online\",\"datapathHealthStatus\":\"Offline\",\"clusterHealthStatus\":\"Online\"\x7d" =
      "❌ Cluster health check failed: expected Online, got Offline" ∧
    ¬ (("datapathHealthStatus".toList) <:+:
        ("❌ Cluster health check failed: expected Online, got Offline".toList)) :=
  ⟨rfl, by decide⟩

/-- C3 (amended): the four fields are tested in the order control, metadata,
datapath, cluster; the first value that is not the string "Online" is
reported immediately — the remaining fields are not examined — with a
message citing the observed value but not the field name, and the outcome is
Success exactly when all four values equal "Online". -/
theorem cluster_health_first_mismatch (fields : List (String × Json)) :
    ClusterHealthCore (Json.obj fields) =
      (match firstNotOnline fields with
       | some v => "❌ Cluster health check failed: expected Online, got " ++ goFmtS v
       | none => "Success") ∧
    (ClusterHealthCore (Json.obj fields) = "Success" ↔
      ∀ k ∈ chFields, (lookupLast fields k).isStr "Online" = true) := by
  have hmain : ClusterHealthCore (Json.obj fields) =
      (match firstNotOnline fields with
       | some v => "❌ Cluster health check failed: expected Online, got " ++ goFmtS v
       | none => "Success") := by
    by_cases hc : (lookupLast fields "controlHealthStatus").isStr "Online" = true <;>
      by_cases hm : (lookupLast fields "metadataHealthStatus").isStr "Online" = true <;>
        by_cases hd : (lookupLast fields "datapathHealthStatus").isStr "Online" = true <;>
          by_cases hl : (lookupLast fields "clusterHealthStatus").isStr "Online" = true <;>
            simp [ClusterHealthCore, firstNotOnline, chFields, hc, hm, hd, hl]
  refine ⟨hmain, ?_⟩
  rw [hmain]
  by_cases hc : (lookupLast fields "controlHealthStatus").isStr "Online" = true <;>
    by_cases hm : (lookupLast fields "metadataHealthStatus").isStr "Online" = true <;>
      by_cases hd : (lookupLast fields "datapathHealthStatus").isStr "Online" = true <;>
        by_cases hl : (lookupLast fields "clusterHealthStatus").isStr "Online" = true <;>
          simp [firstNotOnline, chFields, hc, hm, hd, hl, clusterFail_ne_success]

theorem nodesLoop_eq_spec (l : List Json) (hwf : l.all wfNode = true) :
    ∀ i : Nat, nodesLoop i l = nodesSpecMsg l := by
  induction l with
  | nil => intro i; rfl
  | cons item rest ih =>
    intro i
    rw [List.all_cons, Bool.and_eq_true] at hwf
    obtain ⟨h1, h2⟩ := hwf
    cases item with
    | obj m =>
      simp only [wfNode, Bool.and_eq_true] at h1
      obtain ⟨n, hnv⟩ := isString_exists h1.1
      obtain ⟨h, hsv⟩ := isString_exists h1.2
      simp only [nodesLoop, nodesSpecMsg, firstBadNode, hnv, hsv, Json.asStr]
      by_cases hA : h = "ACTIVE"
      · simpa [hA, nodesSpecMsg] using ih h2 (i + 1)
      · simp [hA]
    | null => simp [wfNode] at h1
    | bool b => simp [wfNode] at h1
    | num x => simp [wfNode] at h1
    | str s => simp [wfNode] at h1
    | arr a => simp [wfNode] at h1

theorem firstBadNode_none_iff (l : List Json) (hwf : l.all wfNode = true) :
    (firstBadNode l = none ↔ l.all nodeActive = true) := by
  induction l with
  | nil => simp [firstBadNode]
  | cons item rest ih =>
    rw [List.all_cons, Bool.and_eq_true] at hwf
    obtain ⟨h1, h2⟩ := hwf
    cases item with
    | obj m =>
      simp only [wfNode, Bool.and_eq_true] at h1
      obtain ⟨n, hnv⟩ := isString_exists h1.1
      obtain ⟨h, hsv⟩ := isString_exists h1.2
      simp only [firstBadNode, hnv, hsv, Json.asStr, List.all_cons, nodeActive, Json.isStr]
      by_cases hA : h = "ACTIVE"
      · simpa [hA] using ih h2
      · simp [hA]
    | null => simp [wfNode] at h1
    | bool b => simp [wfNode] at h1
    | num x => simp [wfNode] at h1
    | str s => simp [wfNode] at h1
    | arr a => simp [wfNode] at h1

theorem nodesSpecMsg_success_iff (l : List Json) :
    (nodesSpecMsg l = "Success" ↔ firstBadNode l = none) := by
  unfold nodesSpecMsg
  cases hfb : firstBadNode l with
  | none => simp
  | some p =>
    cases p with
    | mk n h => simp [nodeFail_ne_success n h]

/-- C6: on a decoded node array whose elements each carry a string `name`
and a string `status_str`, the check equals the message determined by the
first element (in array order) whose status is not ACTIVE — so no earlier,
passing element is reported — and it returns Success exactly when every
element's status is ACTIVE. -/
theorem nodes_first_failure (l : List Json) (hwf : l.all wfNode = true) :
    NodesStatusCore (Json.arr l) = nodesSpecMsg l ∧
    (NodesStatusCore (Json.arr l) = "Success" ↔ l.all nodeActive = true) := by
  have h1 : NodesStatusCore (Json.arr l) = nodesSpecMsg l := nodesLoop_eq_spec l hwf 0
  refine ⟨h1, ?_⟩
  rw [h1, nodesSpecMsg_success_iff]
  exact firstBadNode_none_iff l hwf

/-- C6 witness: the theorem applied to the spec's scenario list — the
message names `n2` and `DEGRADED`, and `n1` does not occur in it. -/
theorem nodes_first_failure_witness :
    NodesStatusCore (Json.arr
      [Json.obj [("name", Json.str "n1"), ("status_str", Json.str "ACTIVE")],
       Json.obj [("name", Json.str "n2"), ("status_str", Json.str "DEGRADED")]]) =
      "node 'n2' is not ACTIVE. Current health: 'DEGRADED'" ∧
    ¬ (("n1".toList) <:+: ("node 'n2' is not ACTIVE. Current health: 'DEGRADED'".toList)) :=
  ⟨((nodes_first_failure
      [Json.obj [("name", Json.str "n1"), ("status_str", Json.str "ACTIVE")],
       Json.obj [("name", Json.str "n2"), ("status_str", Json.str "DEGRADED")]]
      (by decide)).1).trans rfl, by decide⟩

/-- A pod that passes every per-pod check of the evaluator. -/
def readyPod : Pod :=
  { name := "web-0", deletionTimestamp := none, statusReason := "", phase := "Running",
    containerStatuses := [], conditions := [{ condType := "Ready", condStatus := "True" }] }

/-- C8 fails as stated: with two declared prefixes matched by no pod, the
returned message depends on the order in which the final loop visits the
`foundPods` map keys — two legal iteration orders (both permutations of the
key set) give different outcomes on the same PodSet and RequiredPrefixSet. -/
theorem pod_evaluator_order_dependent :
    (["p", "q"].Perm (["p", "q"].dedup) ∧ ["q", "p"].Perm (["p", "q"].dedup)) ∧
    AllPodsAreRunning "ostore" [readyPod] ["p", "q"] ["p", "q"] ≠
      AllPodsAreRunning "ostore" [readyPod] ["p", "q"] ["q", "p"] := by
  refine ⟨⟨by decide, by decide⟩, by decide⟩

theorem find?_isNone_of_perm {l1 l2 : List String} (p : String → Bool) (h : l1.Perm l2)
    (hf : l1.find? p = none) : l2.find? p = none := by
  rw [List.find?_eq_none] at hf ⊢
  intro x hx
  exact hf x (h.mem_iff.mpr hx)

/-- C8 (amended): the evaluator's verdict is order-independent — for any two
iteration orders of the `foundPods` keys it returns Success under one iff it
does under the other; only which unmatched prefix the failure message names
can vary between runs. -/
theorem pod_evaluator_verdict_deterministic (ns : String) (pods : List Pod)
    (requiredPodPrefixes ord1 ord2 : List String)
    (h1 : ord1.Perm requiredPodPrefixes.dedup) (h2 : ord2.Perm requiredPodPrefixes.dedup) :
    (AllPodsAreRunning ns pods requiredPodPrefixes ord1 = "Success" ↔
      AllPodsAreRunning ns pods requiredPodPrefixes ord2 = "Success") := by
  have hperm : ord1.Perm ord2 := h1.trans h2.symm
  unfold AllPodsAreRunning
  split
  · exact Iff.rfl
  · cases hpl : podLoop requiredPodPrefixes pods [] with
    | error msg => simp only [hpl]
    | ok satisfied =>
      simp only [hpl]
      cases hf1 : ord1.find? (fun p => ¬ satisfied.contains p) with
      | none =>
        have hf2 : ord2.find? (fun p => ¬ satisfied.contains p) = none :=
          find?_isNone_of_perm _ hperm hf1
        simp only [hf1, hf2]
      | some p1 =>
        cases hf2 : ord2.find? (fun p => ¬ satisfied.contains p) with
        | none =>
          have hnone := find?_isNone_of_perm _ hperm.symm hf2
          rw [hnone] at hf1
          exact absurd hf1 (by simp)
        | some p2 =>
          simp only [hf1, hf2]
          constructor
          · intro hcon; exact absurd hcon (notFound_ne_success p1)
          · intro hcon; exact absurd hcon (notFound_ne_success p2)

/-- C8 witness: the amended theorem applied to the concrete pod set and two
concrete iteration orders. -/
theorem pod_evaluator_verdict_deterministic_witness :
    (AllPodsAreRunning "ostore" [readyPod] ["p", "q"] ["p", "q"] = "Success" ↔
      AllPodsAreRunning "ostore" [readyPod] ["p", "q"] ["q", "p"] = "Success") :=
  pod_evaluator_verdict_deterministic "ostore" [readyPod] ["p", "q"] ["p", "q"] ["q", "p"]
    (by decide) (by decide)

theorem replicationCore_cases (j : Json) :
    (ReplicationStatusCore j = "Success" ∧ replOnline j = true) ∨
    (ReplicationStatusCore j ≠ "Success" ∧
     ReplicationStatusCore j ≠ "❌ Replication not set" ++ TwoNewLines ∧
     replOnline j = false) := by
  cases j with
  | obj fields =>
    simp only [ReplicationStatusCore, replOnline]
    cases hrc : lookupLast fields "ReplicatedClusters" with
    | arr l =>
      cases l with
      | nil => exact Or.inr ⟨by simp, by simp [TwoNewLines], by simp⟩
      | cons first restl =>
        cases first with
        | obj fm =>
          simp only []
          cases hh : lookupLast fm "Health" with
          | str h =>
            by_cases hON : h = "ONLINE"
            · subst hON
              exact Or.inl ⟨by simp, by simp [Json.isStr]⟩
            · refine Or.inr ⟨?_, ?_, ?_⟩
              · simp only []; rw [if_pos hON]; exact replHealth_ne_success h
              · simp only []; rw [if_pos hON]; exact replHealth_ne_notset h
              · simp [Json.isStr, hON]
          | null => exact Or.inr ⟨by simp, by simp [TwoNewLines], by simp [Json.isStr]⟩
          | bool b => exact Or.inr ⟨by simp, by simp [TwoNewLines], by simp [Json.isStr]⟩
          | num n => exact Or.inr ⟨by simp, by simp [TwoNewLines], by simp [Json.isStr]⟩
          | arr a => exact Or.inr ⟨by simp, by simp [TwoNewLines], by simp [Json.isStr]⟩
          | obj o => exact Or.inr ⟨by simp, by simp [TwoNewLines], by simp [Json.isStr]⟩
        | null => exact Or.inr ⟨by simp, by simp [TwoNewLines], by simp⟩
        | bool b => exact Or.inr ⟨by simp, by simp [TwoNewLines], by simp⟩
        | num n => exact Or.inr ⟨by simp, by simp [TwoNewLines], by simp⟩
        | str s => exact Or.inr ⟨by simp, by simp [TwoNewLines], by simp⟩
        | arr a => exact Or.inr ⟨by simp, by simp [TwoNewLines], by simp⟩
    | null => exact Or.inr ⟨by simp, by simp [TwoNewLines], by simp⟩
    | bool b => exact Or.inr ⟨by simp, by simp [TwoNewLines], by simp⟩
    | num n => exact Or.inr ⟨by simp, by simp [TwoNewLines], by simp⟩
    | str s => exact Or.inr ⟨by simp, by simp [TwoNewLines], by simp⟩
    | obj o => exact Or.inr ⟨by simp, by simp [TwoNewLines], by simp⟩
  | null => exact Or.inr ⟨by simp [ReplicationStatusCore], by simp [ReplicationStatusCore, TwoNewLines], by simp [replOnline]⟩
  | bool b => exact Or.inr ⟨by simp [ReplicationStatusCore], by simp [ReplicationStatusCore, TwoNewLines], by simp [replOnline]⟩
  | num n => exact Or.inr ⟨by simp [ReplicationStatusCore], by simp [ReplicationStatusCore, TwoNewLines], by simp [replOnline]⟩
  | str s => exact Or.inr ⟨by simp [ReplicationStatusCore], by simp [ReplicationStatusCore, TwoNewLines], by simp [replOnline]⟩
  | arr a => exact Or.inr ⟨by simp [ReplicationStatusCore], by simp [ReplicationStatusCore, TwoNewLines], by simp [replOnline]⟩

theorem mem_collect {x : String} {l : List String} (y : String) (h : x ∈ l) :
    x ∈ collect l y := by
  unfold collect
  split
  · exact List.mem_append_left _ h
  · exact h

theorem self_mem_collect (l : List String) {x : String} (h : x ≠ "Success") :
    x ∈ collect l x := by
  unfold collect
  rw [if_pos h]
  exact List.mem_append_right _ (List.mem_singleton_self _)

/-- C5: the replication check returns the "not set" outcome exactly on the
literal empty-object body; that outcome differs from Success and, in a
completed run, lands in the report's issue list; on any other body that
decodes successfully, the outcome is Success iff the top-level object has a
non-empty `ReplicatedClusters` array whose first element's `Health` is
`"ONLINE"`. -/
theorem replication_check_characterization :
    (∀ body : String,
      (ReplicationStatus body = "❌ Replication not set" ++ TwoNewLines ↔ body = "\x7b\x7d")) ∧
    ("❌ Replication not set" ++ TwoNewLines) ≠ "Success" ∧
    (∀ (body : String) (j : Json), body ≠ "\x7b\x7d" → parseJSON body = Except.ok j →
      (ReplicationStatus body = "Success" ↔ replOnline j = true)) ∧
    (∀ (i : RunInputs) (t : String), i.k8sHealth = none → i.token = Except.ok t →
      i.repl ≠ "Success" → ∃ r, mainRun i = Except.ok r ∧ i.repl ∈ r.issues) := by
  refine ⟨?_, by decide, ?_, ?_⟩
  · intro body
    constructor
    · intro hres
      by_contra hne
      unfold ReplicationStatus at hres
      rw [if_neg hne] at hres
      cases hp : parseJSON body with
      | error e => rw [hp] at hres; exact parseFail_ne_notset e hres
      | ok j =>
        rw [hp] at hres
        simp only [] at hres
        rcases replicationCore_cases j with ⟨hs, _⟩ | ⟨_, hnn, _⟩
        · rw [hs] at hres
          exact absurd hres (by simp [TwoNewLines])
        · exact hnn hres
    · intro hb; subst hb; rfl
  · intro body j hne hp
    unfold ReplicationStatus
    rw [if_neg hne, hp]
    rcases replicationCore_cases j with ⟨hs, ho⟩ | ⟨hns, _, ho⟩
    · simp [hs, ho]
    · simp [hns, ho]
  · intro i t h1 h2 hrepl
    unfold mainRun
    rw [h1, h2]
    refine ⟨_, rfl, ?_⟩
    simp only []
    exact mem_collect _ (mem_collect _ (self_mem_collect _ hrepl))

/-- C5 witness: the theorem applied to a concrete body with one ONLINE
replicated cluster. -/
theorem replication_check_characterization_witness :
    ReplicationStatus "\x7b\"ReplicatedClusters\":[\x7b\"Health\":\"ONLINE\"\x7d]\x7d" = "Success" :=
  (replication_check_characterization.2.2.1
    "\x7b\"ReplicatedClusters\":[\x7b\"Health\":\"ONLINE\"\x7d]\x7d"
    (Json.obj [("ReplicatedClusters", Json.arr [Json.obj [("Health", Json.str "ONLINE")]])])
    (by decide) rfl).mpr rfl

/-- A run whose only failing check is the core Kubernetes health check. -/
def abortRun : RunInputs :=
  { k8sHealth := some "component scheduler is not healthy", podCheck := "Success",
    pvCheck := none, token := Except.ok "token0", version := "Success", disk := "Success",
    diskset := "Success", nodes := "Success", repl := "Success", ldap := "Success",
    cluster := "Success" }

/-- C1 fails as stated: in a run where exactly one check — the core
Kubernetes health check, check 1 of 10 — returns a non-Success outcome, the
program terminates immediately with a fatal log: no final report is
produced (so no report with K = 1 issues exists) and the later checks never
execute. -/
theorem run_aborts_on_core_check_failure :
    mainRun abortRun =
      Except.error "❌ Core Kubernetes health check FAILED: component scheduler is not healthy" := rfl


theorem collect_eq (l : List String) (x : String) :
    collect l x = l ++ (if x ≠ "Success" then [x] else []) := by
  unfold collect
  split <;> simp

theorem filter_ne_cons (x : String) (l : List String) :
    List.filter (fun s => s ≠ "Success") (x :: l) =
      (if x ≠ "Success" then [x] else []) ++ List.filter (fun s => s ≠ "Success") l := by
  by_cases h : x = "Success" <;> simp [List.filter_cons, h]

theorem length_ite_singleton (c : Prop) [Decidable c] (x : String) :
    (if c then [x] else []).length = if c then 1 else 0 := by
  split <;> simp

set_option maxHeartbeats 1600000 in
/-- C1 (amended): in a run where the core Kubernetes health check and the
token request succeed, the K checks among the remaining nine that return a
non-Success outcome contribute exactly K issue messages, in execution order,
and the run is reported overall successful iff K = 0; no failure among those
nine aborts the run.  A core-check or token failure instead terminates the
program before the later checks execute. -/
theorem run_collects_all_issues (i : RunInputs) (t : String)
    (h1 : i.k8sHealth = none) (h2 : i.token = Except.ok t) :
    mainRun i = Except.ok { overallSuccess := (issuesOf i).isEmpty, issues := issuesOf i } ∧
    (issuesOf i).length = nonSuccessCount i ∧
    ((issuesOf i).isEmpty = true ↔ nonSuccessCount i = 0) := by
  have hlen : (issuesOf i).length = nonSuccessCount i := by
    unfold issuesOf nonSuccessCount
    cases i.pvCheck <;>
      simp only [filter_ne_cons, List.filter_nil, Option.toList, Option.isSome,
        List.length_append, length_ite_singleton, List.countP_cons, List.countP_nil,
        decide_eq_true_eq, List.length_nil, List.length_cons, Bool.false_eq_true,
        if_false, if_true] <;>
      split_ifs <;> omega
  refine ⟨?_, hlen, ?_⟩
  · unfold mainRun issuesOf
    rw [h1, h2]
    cases i.pvCheck <;>
      simp only [collect_eq, filter_ne_cons, List.filter_nil, Option.toList,
        List.append_assoc, List.append_nil, List.nil_append]
  · rw [← hlen]
    generalize issuesOf i = L
    cases L <;> simp

/-- C1 witness: the amended theorem applied to a concrete run with exactly
one failing check (the disk check). -/
theorem run_collects_all_issues_witness :
    mainRun
      { k8sHealth := none, podCheck := "Success", pvCheck := none,
        token := Except.ok "token0", version := "Success",
        disk := "failed to execute request: dial tcp: no route to host",
        diskset := "Success", nodes := "Success", repl := "Success", ldap := "Success",
        cluster := "Success" } =
      Except.ok
        { overallSuccess := false,
          issues := ["failed to execute request: dial tcp: no route to host"] } :=
  (run_collects_all_issues
    { k8sHealth := none, podCheck := "Success", pvCheck := none,
      token := Except.ok "token0", version := "Success",
      disk := "failed to execute request: dial tcp: no route to host",
      diskset := "Success", nodes := "Success", repl := "Success", ldap := "Success",
      cluster := "Success" } "token0" rfl rfl).1.trans rfl
